import Mathlib

/-!
# sova-cli: project initialisation

A shallow embedding of `cmd/init.go`, `internal/project/api/init.go`,
`internal/project/cli/init.go` and `main.go`.

Every function of the program that touches the outside world is embedded as a
function from the history of effects performed so far (a list of `Event`s, oldest
first) to its result and the extended history.  What the outside world answers
(the template loader, the file system, the prompts, external commands, the order
in which Go ranges over a map) is supplied by an `Env`; each answer may depend on
the whole history, so the file system may change while the program runs.
-/

namespace Sova

/-! ## Go values -/

/-- A Go `error` value: `plain` is an error that wraps nothing (`errors.New`,
`fmt.Errorf` without `%w`), `wrap` is `fmt.Errorf` with `%w`. -/
inductive GoError where
  | plain (msg : String)
  | wrap (msg : String) (cause : GoError)
  deriving DecidableEq, Repr

/-- The method `Error()`: the message of the error. -/
def GoError.Error : GoError → String
  | .plain msg => msg
  | .wrap msg _ => msg

/-- The function `errors.Unwrap`: the error that an error wraps, if any. -/
def GoError.Unwrap : GoError → Option GoError
  | .plain _ => none
  | .wrap _ cause => some cause

/-- What `os.Stat` followed by `os.IsNotExist(err)` can tell apart: the call
succeeded (`found`), failed with a not-exist error (`notExist`), or failed with
another error (`failed`). -/
inductive StatResult where
  | found
  | notExist
  | failed
  deriving DecidableEq, Repr

/-- The four feature toggles of `questions.ProjectAnswers`. -/
structure Toggles where
  useZap : Bool
  usePostgres : Bool
  useRedis : Bool
  useRabbitMQ : Bool
  deriving DecidableEq, Repr

/-- The struct `questions.ProjectAnswers` as the api and cli commands build it. -/
structure ProjectAnswers where
  projectName : String
  toggles : Toggles
  deriving DecidableEq, Repr

/-- One effect on the outside world.  `print` writes a text on standard output and
`printErr` on standard error; `printUsage` and `printHelp` stand for the usage
text of a command, which cobra writes on standard error after an error, and for
its help text, which cobra writes on standard output when help is asked for. -/
inductive Event where
  | loadTemplate (path : String)
  | stat (path : String)
  | mkdirAll (path : String)
  | generateFile (templatePath outputPath : String) (data : List (String × String))
  | generate (kind projectName projectDir : String) (answers : ProjectAnswers)
  | writeFiles (kind projectDir : String) (files : List (String × String))
  | exec (dir : String) (argv : List String)
  | print (text : String)
  | printErr (text : String)
  | printUsage (command : String)
  | printHelp (command : String)
  | askProjectName
  | askProjectType
  | askProjectQuestions (projectType : String)
  | exit (code : Nat)
  deriving DecidableEq, Repr

/-- The history of effects, oldest first. -/
abbrev Trace := List Event

/-- The map literal `templateFiles` of `InitializeProject`, in the order in which
the source writes its entries. -/
def templateFiles : List (String × String) :=
  [("main.tpl", "main.go"),
   ("go-mod.tpl", "go.mod"),
   ("readme.tpl", "README.md"),
   ("root.tpl", "cmd/root.go"),
   ("version.tpl", "cmd/version.go"),
   ("gitignore.tpl", ".gitignore")]

/-- The collaborators of the program.  `getTemplatePath`, the loader and the file
generator belong to package `templates`, the prompts to package `questions`,
`generate` and `writeFiles` to the project generators of packages `api` and
`cli`; `join` and `base` are `filepath.Join` and `filepath.Base`; `flagError` is
the answer of cobra's flag parser to an argument list that it does not accept
for running the command (see `parseArgs`), with `none` for a request for help.
`rangeOrder`
is the order in which a `range` over the map `templateFiles` yields its entries:
Go leaves that order open, and yields every entry of the map once. -/
structure Env where
  getTemplatePath : String → String → String
  join : String → String → String
  base : String → String
  loadTemplate : Trace → String → Option GoError
  stat : Trace → String → StatResult
  mkdirAll : Trace → String → Option GoError
  generateFile : Trace → String → String → List (String × String) → Option GoError
  rangeOrder : Trace → List (String × String)
  rangeOrder_perm : ∀ tr, (rangeOrder tr).Perm templateFiles
  askProjectName : Trace → Except GoError String
  askProjectType : Trace → Except GoError String
  askProjectQuestions : Trace → String → Except GoError Toggles
  generate : Trace → String → String → String → ProjectAnswers →
    Except GoError (List (String × String) × List String)
  writeFiles : Trace → String → String → List (String × String) → Option GoError
  exec : Trace → String → List String → String × Option GoError
  flagError : String → List String → Option GoError

/-! ## `cmd/init.go`: templates -/

/-- Whether `sub` occurs in `l` as a contiguous block. -/
def hasSubstr : List Char → List Char → Bool
  | [], sub => sub.isEmpty
  | c :: cs, sub => sub.isPrefixOf (c :: cs) || hasSubstr cs sub

/-- Go's `strings.Contains`. -/
def stringsContains (s substr : String) : Bool :=
  hasSubstr s.toList substr.toList

/-- `ValidateTemplate` of `cmd/init.go`. -/
def ValidateTemplate (env : Env) (templateName : String) (tr : Trace) :
    Option GoError × Trace :=
  if templateName = "" then
    (some (.plain "template name cannot be empty"), tr)
  else if stringsContains templateName ".." then
    (some (.plain "invalid template name: contains path traversal"), tr)
  else
    let templatePath := env.getTemplatePath templateName "main.tpl"
    match env.loadTemplate tr templatePath with
    | some _ =>
      (some (.plain ("template " ++ templateName ++ " does not exist")),
        tr ++ [Event.loadTemplate templatePath])
    | none => (none, tr ++ [Event.loadTemplate templatePath])

/-- The map `data` handed to `GenerateFile`. -/
def templateData (env : Env) (projectPath : String) : List (String × String) :=
  [("ProjectName", env.base projectPath),
   ("ModulePath", "github.com/example/" ++ env.base projectPath)]

/-- The `GenerateFile` call that the loop body of `InitializeProject` makes for
one entry of the map. -/
def generateCall (env : Env) (projectPath templateName : String)
    (entry : String × String) : Event :=
  Event.generateFile (env.getTemplatePath templateName entry.1)
    (env.join projectPath entry.2) (templateData env projectPath)

/-- What `GenerateFile` answers to the call for one entry of the map, made at
history `tr`. -/
def generateAnswer (env : Env) (projectPath templateName : String) (tr : Trace)
    (entry : String × String) : Option GoError :=
  env.generateFile tr (env.getTemplatePath templateName entry.1)
    (env.join projectPath entry.2) (templateData env projectPath)

/-- The loop `for tpl, outFile := range templateFiles` of `InitializeProject`,
over the entries still to come. -/
def generateLoop (env : Env) (projectPath templateName : String) :
    List (String × String) → Trace → Option GoError × Trace
  | [], tr => (none, tr)
  | (tpl, outFile) :: rest, tr =>
    let templatePath := env.getTemplatePath templateName tpl
    let outputPath := env.join projectPath outFile
    let data := templateData env projectPath
    match env.generateFile tr templatePath outputPath data with
    | some err =>
      (some (.wrap ("failed to generate " ++ outFile ++ ": " ++ err.Error) err),
        tr ++ [Event.generateFile templatePath outputPath data])
    | none =>
      generateLoop env projectPath templateName rest
        (tr ++ [Event.generateFile templatePath outputPath data])

/-- `InitializeProject` of `cmd/init.go`. -/
def InitializeProject (env : Env) (projectPath templateName : String) (tr : Trace) :
    Option GoError × Trace :=
  match ValidateTemplate env templateName tr with
  | (some err, tr1) => (some (.wrap ("invalid template: " ++ err.Error) err), tr1)
  | (none, tr1) =>
    if env.stat tr1 projectPath ≠ StatResult.notExist then
      (some (.plain ("directory " ++ projectPath ++ " already exists")),
        tr1 ++ [Event.stat projectPath])
    else
      let tr2 := tr1 ++ [Event.stat projectPath]
      match env.mkdirAll tr2 projectPath with
      | some err =>
        (some (.wrap ("failed to create project directory: " ++ err.Error) err),
          tr2 ++ [Event.mkdirAll projectPath])
      | none =>
        let tr3 := tr2 ++ [Event.mkdirAll projectPath]
        generateLoop env projectPath templateName (env.rangeOrder tr3) tr3

/-- The history at which the loop of `InitializeProject` starts, in a run that
began at `tr` and reached the loop: the loader was asked for `main.tpl`, the
project path was looked up and then created. -/
def setupTrace (env : Env) (projectPath templateName : String) (tr : Trace) : Trace :=
  tr ++ [Event.loadTemplate (env.getTemplatePath templateName "main.tpl"),
    Event.stat projectPath, Event.mkdirAll projectPath]

/-- The calls of `GenerateFile` in a history. -/
def generateCalls (tr : Trace) : List Event :=
  tr.filter fun e => match e with
    | Event.generateFile _ _ _ => true
    | _ => false

/-- The output paths of the `GenerateFile` calls of `rest` that succeeded, `rest`
being the part of a history that follows `pre`. -/
def writtenFrom (env : Env) : Trace → Trace → List String
  | _, [] => []
  | pre, Event.generateFile templatePath outputPath data :: rest =>
    (if env.generateFile pre templatePath outputPath data = none then [outputPath] else [])
      ++ writtenFrom env (pre ++ [Event.generateFile templatePath outputPath data]) rest
  | pre, e :: rest => writtenFrom env (pre ++ [e]) rest

/-! ## `internal/project/api/init.go` and `internal/project/cli/init.go` -/

/-- The loop over `dirs` in `api.InitCmd.RunE`. -/
def apiMkdirLoop (env : Env) (projectDir : String) :
    List String → Trace → Option GoError × Trace
  | [], tr => (none, tr)
  | dir :: rest, tr =>
    let dirPath := env.join projectDir dir
    match env.mkdirAll tr dirPath with
    | some err =>
      (some (.plain ("failed to create directory " ++ dir ++ ": " ++ err.Error)),
        tr ++ [Event.mkdirAll dirPath])
    | none =>
      apiMkdirLoop env projectDir rest
        (tr ++ [Event.mkdirAll dirPath, Event.print ("Created directory: " ++ dirPath ++ "\n")])

/-- The three external commands that end `api.InitCmd.RunE`, and its closing
messages. -/
def apiFinish (env : Env) (projectName projectDir : String) (tr : Trace) :
    Option GoError × Trace :=
  let tidy := ["go", "mod", "tidy"]
  let get := ["go", "get", "github.com/gin-gonic/gin", "github.com/joho/godotenv"]
  match env.exec tr projectDir tidy with
  | (output, some err) =>
    (some (.plain ("failed to run go mod tidy: " ++ err.Error ++ "\nOutput: " ++ output)),
      tr ++ [Event.exec projectDir tidy])
  | (_, none) =>
    let tr1 := tr ++ [Event.exec projectDir tidy]
    match env.exec tr1 projectDir get with
    | (output, some err) =>
      (some (.plain ("failed to get dependencies: " ++ err.Error ++ "\nOutput: " ++ output)),
        tr1 ++ [Event.exec projectDir get])
    | (_, none) =>
      let tr2 := tr1 ++ [Event.exec projectDir get]
      match env.exec tr2 projectDir tidy with
      | (output, some err) =>
        (some (.plain ("failed to run go mod tidy: " ++ err.Error ++ "\nOutput: " ++ output)),
          tr2 ++ [Event.exec projectDir tidy])
      | (_, none) =>
        (none, tr2 ++ [Event.exec projectDir tidy,
          Event.print ("\nProject " ++ projectName ++ " created successfully!\n"),
          Event.print "\nNext steps:\n",
          Event.print ("cd " ++ projectName ++ "\n"),
          Event.print "go mod tidy\n",
          Event.print "docker compose up -d\n",
          Event.print "go run cmd/main.go\n",
          Event.print "\nYour API will be available at http://localhost:8080\n",
          Event.print "Test the ping endpoint: curl http://localhost:8080/api/ping\n"])

/-- The function `RunE` of `api.InitCmd`; `vars` holds the package variables
`useZap`, `usePostgres`, `useRedis`, `useRabbitMQ` of package `api`, and
`projectName` is `args[0]`. -/
def apiRunE (env : Env) (vars : Toggles) (projectName : String) (tr : Trace) :
    Option GoError × Trace :=
  let projectDir := env.join "." projectName
  if env.stat tr projectDir ≠ StatResult.notExist then
    (some (.plain ("directory " ++ projectDir ++ " already exists")),
      tr ++ [Event.stat projectDir])
  else
    let tr1 := tr ++ [Event.stat projectDir]
    match env.mkdirAll tr1 projectDir with
    | some err =>
      (some (.plain ("failed to create project directory: " ++ err.Error)),
        tr1 ++ [Event.mkdirAll projectDir])
    | none =>
      let tr2 := tr1 ++ [Event.mkdirAll projectDir]
      let answers : ProjectAnswers := ⟨projectName, vars⟩
      let tr3 := tr2 ++ [Event.generate "api" projectName projectDir answers]
      match env.generate tr2 "api" projectName projectDir answers with
      | .error err =>
        (some (.plain ("failed to generate project files: " ++ err.Error)), tr3)
      | .ok (files, dirs) =>
        match apiMkdirLoop env projectDir dirs tr3 with
        | (some err, tr4) => (some err, tr4)
        | (none, tr4) =>
          let tr5 := tr4 ++ [Event.writeFiles "api" projectDir files]
          match env.writeFiles tr4 "api" projectDir files with
          | some err => (some (.plain ("failed to write files: " ++ err.Error)), tr5)
          | none => apiFinish env projectName projectDir tr5

/-- The loop over `dirs` in `cli.InitCmd.Run`; the flag tells whether the loop
ran to its end (`false`: the function returned from inside the loop). -/
def cliMkdirLoop (env : Env) (projectDir : String) :
    List String → Trace → Bool × Trace
  | [], tr => (true, tr)
  | dir :: rest, tr =>
    let dirPath := env.join projectDir dir
    match env.mkdirAll tr dirPath with
    | some err =>
      (false, tr ++ [Event.mkdirAll dirPath,
        Event.print ("Error: failed to create directory " ++ dir ++ ": " ++ err.Error ++ "\n")])
    | none =>
      cliMkdirLoop env projectDir rest
        (tr ++ [Event.mkdirAll dirPath, Event.print ("Created directory: " ++ dirPath ++ "\n")])

/-- The function `Run` of `cli.InitCmd`; `vars` holds the package variables of
package `cli`, and `projectName` is `args[0]`.  A `Run` function has no result. -/
def cliRun (env : Env) (vars : Toggles) (projectName : String) (tr : Trace) : Trace :=
  let projectDir := env.join "." projectName
  if env.stat tr projectDir ≠ StatResult.notExist then
    tr ++ [Event.stat projectDir,
      Event.print ("Error: directory " ++ projectDir ++ " already exists\n")]
  else
    let tr1 := tr ++ [Event.stat projectDir]
    match env.mkdirAll tr1 projectDir with
    | some err =>
      tr1 ++ [Event.mkdirAll projectDir,
        Event.print ("Error: failed to create project directory: " ++ err.Error ++ "\n")]
    | none =>
      let tr2 := tr1 ++ [Event.mkdirAll projectDir]
      let answers : ProjectAnswers := ⟨projectName, vars⟩
      let tr3 := tr2 ++ [Event.generate "cli" projectName projectDir answers]
      match env.generate tr2 "cli" projectName projectDir answers with
      | .error err =>
        tr3 ++ [Event.print ("Error: failed to generate project files: " ++ err.Error ++ "\n")]
      | .ok (files, dirs) =>
        match cliMkdirLoop env projectDir dirs tr3 with
        | (false, tr4) => tr4
        | (true, tr4) =>
          let tr5 := tr4 ++ [Event.writeFiles "cli" projectDir files]
          match env.writeFiles tr4 "cli" projectDir files with
          | some err =>
            tr5 ++ [Event.print ("Error: failed to write files: " ++ err.Error ++ "\n")]
          | none =>
            let tidy := ["go", "mod", "tidy"]
            match env.exec tr5 projectDir tidy with
            | (output, some err) =>
              tr5 ++ [Event.exec projectDir tidy,
                Event.print ("Error: failed to run go mod tidy: " ++ err.Error
                  ++ "\nOutput: " ++ output ++ "\n")]
            | (_, none) =>
              tr5 ++ [Event.exec projectDir tidy,
                Event.print ("\nProject " ++ projectName ++ " created successfully!\n"),
                Event.print "\nNext steps:\n",
                Event.print (" cd " ++ projectName ++ "\n"),
                Event.print "go mod tidy\n",
                Event.print "go run main.go\n",
                Event.print "\nTry your CLI commands:\n",
                Event.print ("   ./" ++ projectName ++ " command1\n"),
                Event.print ("   ./" ++ projectName ++ " command2\n")]

/-! ## Running the api and cli commands -/

/-- The effect of one command-line argument of the form `--use-x=true` or
`--use-x=false` on the four boolean flag variables of a command; `none` for an
argument of another form. -/
def applyToggle (vars : Toggles) (arg : String) : Option Toggles :=
  if arg = "--use-zap=true" then some { vars with useZap := true }
  else if arg = "--use-zap=false" then some { vars with useZap := false }
  else if arg = "--use-postgres=true" then some { vars with usePostgres := true }
  else if arg = "--use-postgres=false" then some { vars with usePostgres := false }
  else if arg = "--use-redis=true" then some { vars with useRedis := true }
  else if arg = "--use-redis=false" then some { vars with useRedis := false }
  else if arg = "--use-rabbitmq=true" then some { vars with useRabbitMQ := true }
  else if arg = "--use-rabbitmq=false" then some { vars with useRabbitMQ := false }
  else none

/-- Flag parsing of the api and cli commands on an argument list that the init
command builds (one argument for the project name, followed by toggle
arguments).  As in the flag parser that cobra uses, an argument that is empty, is
`-`, or does not start with `-` is positional; `--` ends the flags, and all that
follows it is positional; a toggle argument sets its flag variable.  For any
other argument starting with `-` (an unknown flag, a flag without value, a
request for help) the result is `none`: on the lists the init command builds,
cobra then does not run the command, because either parsing fails, or help is
asked for, or no positional argument is left. -/
def parseArgs : List String → Toggles → Option (List String × Toggles)
  | [], vars => some ([], vars)
  | arg :: rest, vars =>
    if arg = "-" ∨ arg.toList.head? ≠ some '-' then
      (parseArgs rest vars).map fun r => (arg :: r.1, r.2)
    else if arg = "--" then
      some (rest, vars)
    else
      match applyToggle vars arg with
      | some vars1 => parseArgs rest vars1
      | none => none

/-- The flag variables of a command before its flags are parsed: `init()` gives
each of the four flags the default `false`. -/
def defaultToggles : Toggles := ⟨false, false, false, false⟩

/-- What cobra's `Execute` does when the command fails with `err`: as neither
`SilenceErrors` nor `SilenceUsage` is set on the api and cli commands, it writes
`Error: <err>` and the usage of the command on standard error, and returns the
error. -/
def cobraFail (command : String) (err : GoError) (tr : Trace) : Option GoError × Trace :=
  (some err,
    tr ++ [Event.printErr ("Error: " ++ err.Error ++ "\n"), Event.printUsage command])

/-- What cobra's `Execute` does with an argument list for which `parseArgs` has
no result: it fails with the error of the flag parser, or, when help was asked
for, writes the help of the command and returns nil. -/
def cobraReject (env : Env) (command : String) (args : List String) (tr : Trace) :
    Option GoError × Trace :=
  match env.flagError command args with
  | some err => cobraFail command err tr
  | none => (none, tr ++ [Event.printHelp command])

/-- `SetArgs(args)` then `Execute()` on `api.InitCmd`: the flags are parsed,
`cobra.ExactArgs(1)` is checked, and `RunE` runs; its error is the result, and
cobra reports it on standard error. -/
def apiExecute (env : Env) (args : List String) (tr : Trace) : Option GoError × Trace :=
  match parseArgs args defaultToggles with
  | none => cobraReject env "api" args tr
  | some ([projectName], vars) =>
    match apiRunE env vars projectName tr with
    | (some err, tr1) => cobraFail "api" err tr1
    | (none, tr1) => (none, tr1)
  | some (positional, _) =>
    cobraFail "api" (.plain ("accepts 1 arg(s), received " ++ toString positional.length)) tr

/-- `SetArgs(args)` then `Execute()` on `cli.InitCmd`: the flags are parsed,
`cobra.ExactArgs(1)` is checked, and `Run` runs; `Run` has no result, so
`Execute` returns nil once it has run. -/
def cliExecute (env : Env) (args : List String) (tr : Trace) : Option GoError × Trace :=
  match parseArgs args defaultToggles with
  | none => cobraReject env "cli" args tr
  | some ([projectName], vars) => (none, cliRun env vars projectName tr)
  | some (positional, _) =>
    cobraFail "cli" (.plain ("accepts 1 arg(s), received " ++ toString positional.length)) tr

/-! ## `cmd/init.go`: the init command -/

/-- The flags of the init command as parsed from the command line: the value of
`--type` (default `""`), and for each toggle flag its value when the flag was
given (`Changed` is true) or `none` when it was not. -/
structure InitFlags where
  projectType : String
  useZap : Option Bool
  usePostgres : Option Bool
  useRedis : Option Bool
  useRabbitMQ : Option Bool
  deriving DecidableEq, Repr

/-- The package variables `useZap`, `usePostgres`, `useRedis`, `useRabbitMQ` of
package `cmd` when `Run` starts: the parsed value of a flag that was given, the
default `false` otherwise. -/
def InitFlags.vars (flags : InitFlags) : Toggles :=
  ⟨flags.useZap.getD false, flags.usePostgres.getD false,
   flags.useRedis.getD false, flags.useRabbitMQ.getD false⟩

/-- The text `fmt.Sprintf("%v", b)` of a boolean. -/
def fmtBool (b : Bool) : String := if b then "true" else "false"

/-- Lines 38 to 46 of `initCmd.Run`: the project name from the argument or from
the prompt. -/
def initName (env : Env) (args : List String) (tr : Trace) : Except GoError String × Trace :=
  match args with
  | arg :: _ => (.ok arg, tr)
  | [] => (env.askProjectName tr, tr ++ [Event.askProjectName])

/-- Lines 48 to 62 of `initCmd.Run`: the first `switch projectType`.  The result
is the project type with which `Run` goes on, or `none` when `Run` returned. -/
def initType (env : Env) (projectType : String) (tr : Trace) : Option String × Trace :=
  if projectType = "api" ∨ projectType = "cli" then
    (some projectType, tr)
  else if projectType = "" then
    match env.askProjectType tr with
    | .error err =>
      (none, tr ++ [Event.askProjectType, Event.print ("Error: " ++ err.Error ++ "\n")])
    | .ok answer => (some answer, tr ++ [Event.askProjectType])
  else
    (none, tr ++ [Event.print ("Error: unsupported project type: " ++ projectType ++ "\n")])

/-- Lines 64 to 78 of `initCmd.Run`: the value of the four package variables
after the configuration questions, or `none` when `Run` returned. -/
def initConfig (env : Env) (flags : InitFlags) (projectType : String) (tr : Trace) :
    Option Toggles × Trace :=
  if !flags.useZap.isSome && !flags.usePostgres.isSome &&
      !flags.useRedis.isSome && !flags.useRabbitMQ.isSome then
    match env.askProjectQuestions tr projectType with
    | .error err =>
      (none, tr ++ [Event.askProjectQuestions projectType,
        Event.print ("Error: failed to get project configuration: " ++ err.Error ++ "\n")])
    | .ok answers =>
      (some ⟨answers.useZap, answers.usePostgres, answers.useRedis, answers.useRabbitMQ⟩,
        tr ++ [Event.askProjectQuestions projectType])
  else
    (some flags.vars, tr)

/-- Lines 84 to 96 of `initCmd.Run`: the argument list of case `"api"`. -/
def apiArgs (flags : InitFlags) (projectName : String) (vars : Toggles) : List String :=
  let args := [projectName]
  let args := if flags.useZap.isSome then args ++ ["--use-zap=" ++ fmtBool vars.useZap] else args
  let args := if flags.usePostgres.isSome then
    args ++ ["--use-postgres=" ++ fmtBool vars.usePostgres] else args
  let args := if flags.useRedis.isSome then
    args ++ ["--use-redis=" ++ fmtBool vars.useRedis] else args
  let args := if flags.useRabbitMQ.isSome then
    args ++ ["--use-rabbitmq=" ++ fmtBool vars.useRabbitMQ] else args
  args

/-- Lines 101 to 113 of `initCmd.Run`: the argument list of case `"cli"`. -/
def cliArgs (flags : InitFlags) (projectName : String) (vars : Toggles) : List String :=
  let args := [projectName]
  let args := if flags.useZap.isSome then args ++ ["--use-zap=" ++ fmtBool vars.useZap] else args
  let args := if flags.usePostgres.isSome then
    args ++ ["--use-postgres=" ++ fmtBool vars.usePostgres] else args
  let args := if flags.useRedis.isSome then
    args ++ ["--use-redis=" ++ fmtBool vars.useRedis] else args
  let args := if flags.useRabbitMQ.isSome then
    args ++ ["--use-rabbitmq=" ++ fmtBool vars.useRabbitMQ] else args
  args

/-- The argument list in the words of the specification: the project name,
followed, in the order use-zap, use-postgres, use-redis, use-rabbitmq, by
`--<flag>=<value>` for the flags that were given on the command line, `<value>`
being the parsed boolean of the flag. -/
def specArgs (flags : InitFlags) (projectName : String) : List String :=
  projectName ::
    [("use-zap", flags.useZap), ("use-postgres", flags.usePostgres),
      ("use-redis", flags.useRedis), ("use-rabbitmq", flags.useRabbitMQ)].filterMap
      fun flag => flag.2.map fun value => "--" ++ flag.1 ++ "=" ++ fmtBool value

/-- Lines 80 to 118 of `initCmd.Run`: the second `switch projectType`; the result
is the value of `err` after it. -/
def initDispatch (env : Env) (flags : InitFlags) (projectName projectType : String)
    (vars : Toggles) (tr : Trace) : Option GoError × Trace :=
  if projectType = "api" then
    apiExecute env (apiArgs flags projectName vars) tr
  else if projectType = "cli" then
    cliExecute env (cliArgs flags projectName vars) tr
  else
    (some (.plain ("unsupported project type: " ++ projectType)), tr)

/-- The function `Run` of `initCmd`; `flags` is the parsed command line and `args`
the positional arguments.  A `Run` function has no result. -/
def initRun (env : Env) (flags : InitFlags) (args : List String) (tr : Trace) : Trace :=
  match initName env args tr with
  | (.error err, tr1) => tr1 ++ [Event.print ("Error: " ++ err.Error ++ "\n")]
  | (.ok projectName, tr1) =>
    match initType env flags.projectType tr1 with
    | (none, tr2) => tr2
    | (some projectType, tr2) =>
      match initConfig env flags projectType tr2 with
      | (none, tr3) => tr3
      | (some vars, tr3) =>
        match initDispatch env flags projectName projectType vars tr3 with
        | (some err, tr4) => tr4 ++ [Event.print ("Error: " ++ err.Error ++ "\n")]
        | (none, tr4) => tr4 ++ [Event.print "Project initialized successfully\n"]

/-- The effects that only the api and cli commands have: looking up and creating
directories, generating and writing the project files, running external
commands. -/
def Event.isGeneratorEffect : Event → Bool
  | .stat _ => true
  | .mkdirAll _ => true
  | .generate _ _ _ _ => true
  | .writeFiles _ _ _ => true
  | .exec _ _ => true
  | _ => false

/-- The project type with which `initCmd.Run` reaches its second `switch`: the
value of `--type` when it is `"api"` or `"cli"`, the answer to the prompt when
`--type` is empty; `none` when `Run` returns before. -/
def resolvedType (env : Env) (flags : InitFlags) (args : List String) (tr : Trace) :
    Option String :=
  match initName env args tr with
  | (.error _, _) => none
  | (.ok _, tr1) => (initType env flags.projectType tr1).1

/-- The history `tr1` extends `tr` by effects that are none of the api and cli
commands. -/
def ExtendsQuietly (tr tr1 : Trace) : Prop :=
  ∃ ext : Trace, tr1 = tr ++ ext ∧ ∀ e ∈ ext, e.isGeneratorEffect = false

/-! ## `main.go` -/

/-- Modelled from the spec: `cmd.Execute` of `cmd/root.go`, which is not among the
sources, for a command line that selects the init command.  The top-level command
checks `cobra.MaximumNArgs(1)` and runs `initCmd.Run`; as `Run` has no result, the
error handed back to `main` is nil whenever `Run` was run. -/
def Execute (env : Env) (flags : InitFlags) (args : List String) (tr : Trace) :
    Option GoError × Trace :=
  if args.length ≤ 1 then
    (none, initRun env flags args tr)
  else
    (some (.plain ("accepts at most 1 arg(s), received " ++ toString args.length)), tr)

/-- The function `main` of `main.go`: the exit status of the process and the
history at its end. -/
def main (env : Env) (flags : InitFlags) (args : List String) (tr : Trace) : Nat × Trace :=
  match Execute env flags args tr with
  | (some err, tr1) => (1, tr1 ++ [Event.printErr (err.Error ++ "\n"), Event.exit 1])
  | (none, tr1) => (0, tr1)

/-! ## Concrete environments -/

/-- An outside world in which every collaborator succeeds: the template store has
the categories `cli` and `api`, no path exists yet, and the map is ranged over in
the order of the source. -/
def demoEnv : Env where
  getTemplatePath := fun category name => category ++ "/" ++ name
  join := fun dir file => if dir = "." then file else dir ++ "/" ++ file
  base := fun path => path
  loadTemplate := fun _ path =>
    if path = "cli/main.tpl" ∨ path = "api/main.tpl" then none
    else some (.plain "template not found")
  stat := fun _ _ => StatResult.notExist
  mkdirAll := fun _ _ => none
  generateFile := fun _ _ _ _ => none
  rangeOrder := fun _ => templateFiles
  rangeOrder_perm := fun _ => List.Perm.refl _
  askProjectName := fun _ => .ok "demo"
  askProjectType := fun _ => .ok "cli"
  askProjectQuestions := fun _ _ => .ok defaultToggles
  generate := fun _ _ _ _ _ => .ok ([("main.go", "package main")], ["cmd"])
  writeFiles := fun _ _ _ _ => none
  exec := fun _ _ _ => ("", none)
  flagError := fun _ _ => some (.plain "unknown flag")

/-- As `demoEnv`, but the path `demo` exists already. -/
def existingEnv : Env :=
  { demoEnv with stat := fun _ path => if path = "demo" then StatResult.found else StatResult.notExist }

/-- As `demoEnv`, but `GenerateFile` fails on the template `go-mod.tpl`. -/
def failingEnv : Env :=
  { demoEnv with
    generateFile := fun _ templatePath _ _ =>
      if templatePath = "cli/go-mod.tpl" then some (.plain "disk full") else none }

/-- As `demoEnv`, but the map is ranged over from its last entry to its first. -/
def reversedEnv : Env :=
  { demoEnv with
    rangeOrder := fun _ => templateFiles.reverse
    rangeOrder_perm := fun _ => List.reverse_perm _ }

/-- As `failingEnv`, but the map yields `go-mod.tpl` before `main.tpl`. -/
def swappedEnv : Env :=
  { failingEnv with
    rangeOrder := fun _ =>
      [("go-mod.tpl", "go.mod"), ("main.tpl", "main.go"), ("readme.tpl", "README.md"),
       ("root.tpl", "cmd/root.go"), ("version.tpl", "cmd/version.go"),
       ("gitignore.tpl", ".gitignore")]
    rangeOrder_perm := fun _ => List.Perm.swap _ _ _ }

/-- As `demoEnv`, but the prompt for the project name fails. -/
def promptFailEnv : Env :=
  { demoEnv with askProjectName := fun _ => .error (.plain "EOF") }

/-- As `demoEnv`, but creating a directory fails: the parent `work` of the project
path cannot be created, and the error names that parent. -/
def mkdirFailEnv : Env :=
  { demoEnv with mkdirAll := fun _ _ => some (.plain "mkdir work: permission denied") }

/-- As `demoEnv`, but the answer to each of the four configuration questions is
yes. -/
def answerEnv : Env :=
  { demoEnv with askProjectQuestions := fun _ _ => .ok ⟨true, true, true, true⟩ }

/-- As `demoEnv`, but the prompt for the project type fails. -/
def typePromptFailEnv : Env :=
  { demoEnv with askProjectType := fun _ => .error (.plain "EOF") }

/-- As `demoEnv`, but the configuration questions fail. -/
def questionsFailEnv : Env :=
  { demoEnv with askProjectQuestions := fun _ _ => .error (.plain "EOF") }

/-! ## Theorems -/

/-! ### `strings.Contains` -/

/-- The function `hasSubstr` decides whether `sub` occurs in `l`. -/
theorem hasSubstr_iff (l sub : List Char) :
    hasSubstr l sub = true ↔ ∃ a b, l = a ++ sub ++ b := by
  induction l with
  | nil =>
    simp only [hasSubstr, List.isEmpty_iff]
    constructor
    · intro h
      exact ⟨[], [], by simp [h]⟩
    · rintro ⟨a, b, h⟩
      have h1 := congrArg List.length h
      simp only [List.length_nil, List.length_append] at h1
      exact List.length_eq_zero.mp (by omega)
  | cons c cs ih =>
    simp only [hasSubstr, Bool.or_eq_true, List.isPrefixOf_iff_prefix, ih]
    constructor
    · rintro (⟨b, hb⟩ | ⟨a, b, h⟩)
      · exact ⟨[], b, by simp [hb]⟩
      · exact ⟨c :: a, b, by simp [h]⟩
    · rintro ⟨a, b, h⟩
      cases a with
      | nil => exact Or.inl ⟨b, by simpa using h.symm⟩
      | cons x a1 =>
        simp only [List.cons_append, List.cons.injEq] at h
        exact Or.inr ⟨a1, b, h.2⟩

/-- The test `strings.Contains(templateName, "..")` holds exactly of the names in
which two dots follow each other. -/
theorem stringsContains_dotdot (name : String) :
    stringsContains name ".." = true ↔ ∃ a b, name.toList = a ++ ['.', '.'] ++ b := by
  unfold stringsContains
  rw [hasSubstr_iff]
  rfl

/-! ### ValidateTemplate -/

/-- C1: a template name in which `..` occurs is rejected with the path-traversal
error, and the history is returned as it was received: the template loader was
not asked to load any path. -/
theorem ValidateTemplate_traversal (env : Env) (templateName : String) (tr : Trace)
    (h : ∃ a b, templateName.toList = a ++ ['.', '.'] ++ b) :
    ValidateTemplate env templateName tr =
      (some (.plain "invalid template name: contains path traversal"), tr) := by
  have hne : templateName ≠ "" := by
    rintro rfl
    obtain ⟨a, b, hab⟩ := h
    have h1 := congrArg List.length hab
    simp at h1
    omega
  have hc : stringsContains templateName ".." = true := (stringsContains_dotdot _).mpr h
  simp [ValidateTemplate, hne, hc]

theorem ValidateTemplate_traversal_witness :
    (∃ a b, "../invalid".toList = a ++ ['.', '.'] ++ b) ∧
    ValidateTemplate demoEnv "../invalid" [] =
      (some (.plain "invalid template name: contains path traversal"), []) :=
  ⟨⟨[], "/invalid".toList, by decide⟩,
    ValidateTemplate_traversal demoEnv "../invalid" [] ⟨[], "/invalid".toList, by decide⟩⟩

/-- C2: `ValidateTemplate` returns no error exactly when the name is not empty,
`..` does not occur in it, and the loader loads `GetTemplatePath(name, "main.tpl")`;
the empty name is rejected, and a name that passes the two checks but whose
`main.tpl` does not load is rejected as a template that does not exist. -/
theorem ValidateTemplate_ok_iff (env : Env) (templateName : String) (tr : Trace) :
    ((ValidateTemplate env templateName tr).1 = none ↔
      (templateName ≠ "" ∧ (¬ ∃ a b, templateName.toList = a ++ ['.', '.'] ++ b) ∧
        env.loadTemplate tr (env.getTemplatePath templateName "main.tpl") = none)) ∧
    (ValidateTemplate env "" tr).1 = some (.plain "template name cannot be empty") ∧
    (templateName ≠ "" → (¬ ∃ a b, templateName.toList = a ++ ['.', '.'] ++ b) →
      env.loadTemplate tr (env.getTemplatePath templateName "main.tpl") ≠ none →
      ValidateTemplate env templateName tr =
        (some (.plain ("template " ++ templateName ++ " does not exist")),
          tr ++ [Event.loadTemplate (env.getTemplatePath templateName "main.tpl")])) := by
  rw [← stringsContains_dotdot]
  refine ⟨?_, by simp [ValidateTemplate], ?_⟩
  · unfold ValidateTemplate
    by_cases h1 : templateName = ""
    · simp [h1]
    · by_cases h2 : stringsContains templateName ".." = true
      · simp [h1, h2]
      · simp only [h1, h2, if_false]
        cases env.loadTemplate tr (env.getTemplatePath templateName "main.tpl") <;> simp [h1]
  · intro h1 h2 h3
    unfold ValidateTemplate
    simp only [h1, h2, if_false]
    cases h : env.loadTemplate tr (env.getTemplatePath templateName "main.tpl") with
    | none => exact absurd h h3
    | some e => rfl

theorem ValidateTemplate_ok_iff_witness :
    ValidateTemplate demoEnv "nonexistent" [] =
      (some (.plain "template nonexistent does not exist"),
        [Event.loadTemplate "nonexistent/main.tpl"]) :=
  (ValidateTemplate_ok_iff demoEnv "nonexistent" []).2.2 (by decide)
    (by rw [← stringsContains_dotdot]; decide) (by decide)

/-! ### The generation loop -/

theorem ValidateTemplate_none (env : Env) (templateName : String) (tr : Trace)
    (h : (ValidateTemplate env templateName tr).1 = none) :
    ValidateTemplate env templateName tr =
      (none, tr ++ [Event.loadTemplate (env.getTemplatePath templateName "main.tpl")]) := by
  unfold ValidateTemplate at h ⊢
  by_cases h1 : templateName = ""
  · simp [h1] at h
  · by_cases h2 : stringsContains templateName ".." = true
    · simp [h1, h2] at h
    · simp only [h1, h2, if_false] at h ⊢
      cases hl : env.loadTemplate tr (env.getTemplatePath templateName "main.tpl") with
      | none => rfl
      | some e => simp [hl] at h

/-- One pass of the loop on a call that succeeds. -/
theorem generateLoop_cons_ok (env : Env) (p t : String) (a : String × String)
    (rest : List (String × String)) (tr : Trace)
    (h : generateAnswer env p t tr a = none) :
    generateLoop env p t (a :: rest) tr =
      generateLoop env p t rest (tr ++ [generateCall env p t a]) := by
  obtain ⟨tpl, out⟩ := a
  simp only [generateAnswer] at h
  simp [generateLoop, generateCall, h]

/-- One pass of the loop on a call that fails. -/
theorem generateLoop_cons_fail (env : Env) (p t : String) (a : String × String)
    (rest : List (String × String)) (tr : Trace) (err : GoError)
    (h : generateAnswer env p t tr a = some err) :
    generateLoop env p t (a :: rest) tr =
      (some (.wrap ("failed to generate " ++ a.2 ++ ": " ++ err.Error) err),
        tr ++ [generateCall env p t a]) := by
  obtain ⟨tpl, out⟩ := a
  simp only [generateAnswer] at h
  simp [generateLoop, generateCall, h]

/-- The loop stops at the first call that fails: if the calls for the entries
before position `k` succeed and the call for the entry at `k` fails, the loop
returns the wrapped error after exactly `k + 1` calls. -/
theorem generateLoop_fail (env : Env) (p t : String) :
    ∀ (l : List (String × String)) (tr : Trace) (k : Nat) (entry : String × String)
      (err : GoError),
      l[k]? = some entry →
      (∀ i e, i < k → l[i]? = some e →
        generateAnswer env p t (tr ++ (l.take i).map (generateCall env p t)) e = none) →
      generateAnswer env p t (tr ++ (l.take k).map (generateCall env p t)) entry = some err →
      generateLoop env p t l tr =
        (some (.wrap ("failed to generate " ++ entry.2 ++ ": " ++ err.Error) err),
          tr ++ (l.take (k + 1)).map (generateCall env p t)) := by
  intro l
  induction l with
  | nil => intro tr k entry err hk; simp at hk
  | cons a rest ih =>
    intro tr k entry err hk hbefore hfail
    cases k with
    | zero =>
      simp only [List.getElem?_cons_zero, Option.some.injEq] at hk
      subst hk
      simp only [List.take_zero, List.map_nil, List.append_nil] at hfail
      rw [generateLoop_cons_fail env p t a rest tr err hfail]
      simp
    | succ k =>
      have h0 : generateAnswer env p t tr a = none := by
        have := hbefore 0 a (Nat.succ_pos k) (by simp)
        simpa using this
      rw [generateLoop_cons_ok env p t a rest tr h0]
      have hk1 : rest[k]? = some entry := by simpa using hk
      rw [ih (tr ++ [generateCall env p t a]) k entry err hk1]
      · simp
      · intro i e hi he
        have := hbefore (i + 1) e (by omega) (by simpa using he)
        simpa using this
      · simpa using hfail

/-- Every run of the loop either makes the call of every entry, all with success,
and returns nil, or stops at the first call that fails. -/
theorem generateLoop_result (env : Env) (p t : String) :
    ∀ (l : List (String × String)) (tr : Trace),
      (generateLoop env p t l tr = (none, tr ++ l.map (generateCall env p t)) ∧
        ∀ i e, l[i]? = some e →
          generateAnswer env p t (tr ++ (l.take i).map (generateCall env p t)) e = none) ∨
      (∃ k entry err, l[k]? = some entry ∧
        (∀ i e, i < k → l[i]? = some e →
          generateAnswer env p t (tr ++ (l.take i).map (generateCall env p t)) e = none) ∧
        generateAnswer env p t (tr ++ (l.take k).map (generateCall env p t)) entry = some err ∧
        generateLoop env p t l tr =
          (some (.wrap ("failed to generate " ++ entry.2 ++ ": " ++ err.Error) err),
            tr ++ (l.take (k + 1)).map (generateCall env p t))) := by
  intro l
  induction l with
  | nil =>
    intro tr
    left
    exact ⟨by simp [generateLoop], by intro i e h; simp at h⟩
  | cons a rest ih =>
    intro tr
    cases h0 : generateAnswer env p t tr a with
    | some err =>
      right
      refine ⟨0, a, err, by simp, by intro i e hi; omega, by simpa using h0, ?_⟩
      rw [generateLoop_cons_fail env p t a rest tr err h0]
      simp
    | none =>
      rw [generateLoop_cons_ok env p t a rest tr h0]
      rcases ih (tr ++ [generateCall env p t a]) with ⟨hres, hall⟩ | ⟨k, entry, err, hk, hb, hf, hres⟩
      · left
        refine ⟨by simpa using hres, ?_⟩
        intro i e he
        cases i with
        | zero =>
          simp only [List.getElem?_cons_zero, Option.some.injEq] at he
          subst he
          simpa using h0
        | succ i =>
          have := hall i e (by simpa using he)
          simpa using this
      · right
        refine ⟨k + 1, entry, err, by simpa using hk, ?_, by simpa using hf, by simpa using hres⟩
        intro i e hi he
        cases i with
        | zero =>
          simp only [List.getElem?_cons_zero, Option.some.injEq] at he
          subst he
          simpa using h0
        | succ i =>
          have := hb i e (by omega) (by simpa using he)
          simpa using this

/-- The three steps of `InitializeProject` before the loop, when each succeeds. -/
theorem InitializeProject_reaches_loop (env : Env) (p t : String) (tr : Trace)
    (hvalid : (ValidateTemplate env t tr).1 = none)
    (hstat : env.stat (tr ++ [Event.loadTemplate (env.getTemplatePath t "main.tpl")]) p
      = StatResult.notExist)
    (hmk : env.mkdirAll (tr ++ [Event.loadTemplate (env.getTemplatePath t "main.tpl"),
      Event.stat p]) p = none) :
    InitializeProject env p t tr =
      generateLoop env p t (env.rangeOrder (setupTrace env p t tr)) (setupTrace env p t tr) := by
  unfold InitializeProject
  rw [ValidateTemplate_none env t tr hvalid]
  simp [hstat, hmk, setupTrace]

/-! ### An existing project path -/

/-- C3: when the project path exists already, `InitializeProject` (with a template
that validates) and the api command return the error `directory ... already
exists`, and the cli command prints it; in each case the only effect after the
lookup of the path is that report: no directory is created, no file is generated,
no external command is run. -/
theorem existing_directory_reported (env : Env) (projectPath templateName projectName : String)
    (vars : Toggles) (tr : Trace) :
    ((ValidateTemplate env templateName tr).1 = none →
      env.stat (tr ++ [Event.loadTemplate (env.getTemplatePath templateName "main.tpl")])
        projectPath = StatResult.found →
      InitializeProject env projectPath templateName tr =
        (some (.plain ("directory " ++ projectPath ++ " already exists")),
          tr ++ [Event.loadTemplate (env.getTemplatePath templateName "main.tpl"),
            Event.stat projectPath])) ∧
    (env.stat tr (env.join "." projectName) = StatResult.found →
      apiRunE env vars projectName tr =
        (some (.plain ("directory " ++ env.join "." projectName ++ " already exists")),
          tr ++ [Event.stat (env.join "." projectName)])) ∧
    (env.stat tr (env.join "." projectName) = StatResult.found →
      cliRun env vars projectName tr =
        tr ++ [Event.stat (env.join "." projectName),
          Event.print ("Error: directory " ++ env.join "." projectName
            ++ " already exists\n")]) := by
  refine ⟨?_, ?_, ?_⟩
  · intro hvalid hstat
    unfold InitializeProject
    rw [ValidateTemplate_none env templateName tr hvalid]
    simp [hstat]
  · intro hstat
    simp [apiRunE, hstat]
  · intro hstat
    simp [cliRun, hstat]

theorem existing_directory_reported_witness :
    InitializeProject existingEnv "demo" "cli" [] =
      (some (.plain "directory demo already exists"),
        [Event.loadTemplate "cli/main.tpl", Event.stat "demo"]) ∧
    apiRunE existingEnv defaultToggles "demo" [] =
      (some (.plain "directory demo already exists"), [Event.stat "demo"]) ∧
    cliRun existingEnv defaultToggles "demo" [] =
      [Event.stat "demo", Event.print "Error: directory demo already exists\n"] :=
  ⟨(existing_directory_reported existingEnv "demo" "cli" "demo" defaultToggles []).1
      (by decide) (by decide),
    (existing_directory_reported existingEnv "demo" "cli" "demo" defaultToggles []).2.1
      (by decide),
    (existing_directory_reported existingEnv "demo" "cli" "demo" defaultToggles []).2.2
      (by decide)⟩

/-! ### InitializeProject -/

/-- The result of `InitializeProject` in terms of its steps. -/
theorem InitializeProject_cases (env : Env) (p t : String) (tr : Trace) :
    (∃ err, InitializeProject env p t tr = (some err, tr)) ∨
    (∃ err, InitializeProject env p t tr =
      (some err, tr ++ [Event.loadTemplate (env.getTemplatePath t "main.tpl")])) ∨
    (∃ err, InitializeProject env p t tr =
      (some err, tr ++ [Event.loadTemplate (env.getTemplatePath t "main.tpl"), Event.stat p])) ∨
    (∃ err, InitializeProject env p t tr = (some err, setupTrace env p t tr)) ∨
    ((ValidateTemplate env t tr).1 = none ∧
      InitializeProject env p t tr =
        generateLoop env p t (env.rangeOrder (setupTrace env p t tr))
          (setupTrace env p t tr)) := by
  unfold InitializeProject
  cases hv : (ValidateTemplate env t tr).1 with
  | some e =>
    unfold ValidateTemplate at hv ⊢
    by_cases h1 : t = ""
    · left; simp [h1]
    · by_cases h2 : stringsContains t ".." = true
      · left; simp [h1, h2]
      · right; left
        simp only [h1, h2, if_false] at hv ⊢
        cases hl : env.loadTemplate tr (env.getTemplatePath t "main.tpl") with
        | none => simp [hl] at hv
        | some e1 => simp
  | none =>
    rw [ValidateTemplate_none env t tr hv]
    by_cases hs : env.stat (tr ++ [Event.loadTemplate (env.getTemplatePath t "main.tpl")]) p
        = StatResult.notExist
    · cases hm : env.mkdirAll (tr ++ [Event.loadTemplate (env.getTemplatePath t "main.tpl"),
          Event.stat p]) p with
      | some e => right; right; right; left; simp [hs, hm, setupTrace]
      | none => right; right; right; right; simp [hs, hm, setupTrace]
    · right; right; left
      simp [hs]

/-- C4: when `InitializeProject` returns nil, the history it leaves is the three
steps before the loop followed by one `GenerateFile` call per entry of the map,
in the order of the range; each of the six entries of the manifest occurs in
that order, and none occurs twice; the call for an entry has template path
`GetTemplatePath(templateName, tpl)` and output path `Join(projectPath, dest)`
(this is `generateCall`), and every one of these calls succeeded. -/
theorem InitializeProject_nil_complete (env : Env) (projectPath templateName : String)
    (tr tr1 : Trace)
    (h : InitializeProject env projectPath templateName tr = (none, tr1)) :
    tr1 = setupTrace env projectPath templateName tr ++
      (env.rangeOrder (setupTrace env projectPath templateName tr)).map
        (generateCall env projectPath templateName) ∧
    (env.rangeOrder (setupTrace env projectPath templateName tr)).Nodup ∧
    (∀ entry ∈ templateFiles,
      entry ∈ env.rangeOrder (setupTrace env projectPath templateName tr)) ∧
    (∀ i entry, (env.rangeOrder (setupTrace env projectPath templateName tr))[i]? = some entry →
      generateAnswer env projectPath templateName
        (setupTrace env projectPath templateName tr ++
          ((env.rangeOrder (setupTrace env projectPath templateName tr)).take i).map
            (generateCall env projectPath templateName)) entry = none) := by
  have hnodup : (env.rangeOrder (setupTrace env projectPath templateName tr)).Nodup :=
    (env.rangeOrder_perm _).nodup_iff.mpr (by decide)
  have hmem : ∀ entry ∈ templateFiles,
      entry ∈ env.rangeOrder (setupTrace env projectPath templateName tr) :=
    fun entry he => (env.rangeOrder_perm _).mem_iff.mpr he
  rcases InitializeProject_cases env projectPath templateName tr with
    ⟨e, he⟩ | ⟨e, he⟩ | ⟨e, he⟩ | ⟨e, he⟩ | ⟨_, hloop⟩
  · rw [he] at h; simp at h
  · rw [he] at h; simp at h
  · rw [he] at h; simp at h
  · rw [he] at h; simp at h
  · rw [hloop] at h
    rcases generateLoop_result env projectPath templateName
        (env.rangeOrder (setupTrace env projectPath templateName tr))
        (setupTrace env projectPath templateName tr) with
      ⟨hres, hall⟩ | ⟨k, entry, err, _, _, _, hres⟩
    · rw [hres] at h
      simp only [Prod.mk.injEq, true_and] at h
      exact ⟨h.symm, hnodup, hmem, hall⟩
    · rw [hres] at h; simp at h

theorem InitializeProject_nil_complete_witness :
    InitializeProject demoEnv "demo" "cli" [] =
      (none, (InitializeProject demoEnv "demo" "cli" []).2) ∧
    (InitializeProject demoEnv "demo" "cli" []).2 =
      setupTrace demoEnv "demo" "cli" [] ++
        (demoEnv.rangeOrder (setupTrace demoEnv "demo" "cli" [])).map
          (generateCall demoEnv "demo" "cli") :=
  ⟨by decide,
    (InitializeProject_nil_complete demoEnv "demo" "cli" []
      (InitializeProject demoEnv "demo" "cli" []).2 (by decide)).1⟩

/-- C5: in a run of `InitializeProject` that reaches the loop, if the calls of
`GenerateFile` for the entries before position `k` of the range succeed and the
call for the entry at position `k` fails, then the function returns the error
`failed to generate <dest>: <cause>`, and the history it leaves ends with that
failing call: it holds the three steps before the loop and the calls for the
entries up to position `k`, and nothing after them (no further call, no removal
of what was created). -/
theorem InitializeProject_stops_at_failure (env : Env) (projectPath templateName : String)
    (tr : Trace) (k : Nat) (entry : String × String) (err : GoError)
    (hvalid : (ValidateTemplate env templateName tr).1 = none)
    (hstat : env.stat (tr ++ [Event.loadTemplate (env.getTemplatePath templateName "main.tpl")])
      projectPath = StatResult.notExist)
    (hmk : env.mkdirAll (tr ++ [Event.loadTemplate (env.getTemplatePath templateName "main.tpl"),
      Event.stat projectPath]) projectPath = none)
    (hk : (env.rangeOrder (setupTrace env projectPath templateName tr))[k]? = some entry)
    (hbefore : ∀ i e, i < k →
      (env.rangeOrder (setupTrace env projectPath templateName tr))[i]? = some e →
      generateAnswer env projectPath templateName
        (setupTrace env projectPath templateName tr ++
          ((env.rangeOrder (setupTrace env projectPath templateName tr)).take i).map
            (generateCall env projectPath templateName)) e = none)
    (hfail : generateAnswer env projectPath templateName
        (setupTrace env projectPath templateName tr ++
          ((env.rangeOrder (setupTrace env projectPath templateName tr)).take k).map
            (generateCall env projectPath templateName)) entry = some err) :
    InitializeProject env projectPath templateName tr =
      (some (.wrap ("failed to generate " ++ entry.2 ++ ": " ++ err.Error) err),
        setupTrace env projectPath templateName tr ++
          ((env.rangeOrder (setupTrace env projectPath templateName tr)).take (k + 1)).map
            (generateCall env projectPath templateName)) := by
  rw [InitializeProject_reaches_loop env projectPath templateName tr hvalid hstat hmk]
  exact generateLoop_fail env projectPath templateName _ _ k entry err hk hbefore hfail

theorem InitializeProject_stops_at_failure_witness :
    InitializeProject failingEnv "demo" "cli" [] =
      (some (.wrap "failed to generate go.mod: disk full" (.plain "disk full")),
        [Event.loadTemplate "cli/main.tpl", Event.stat "demo", Event.mkdirAll "demo",
          Event.generateFile "cli/main.tpl" "demo/main.go"
            [("ProjectName", "demo"), ("ModulePath", "github.com/example/demo")],
          Event.generateFile "cli/go-mod.tpl" "demo/go.mod"
            [("ProjectName", "demo"), ("ModulePath", "github.com/example/demo")]]) :=
  InitializeProject_stops_at_failure failingEnv "demo" "cli" [] 1 ("go-mod.tpl", "go.mod")
    (.plain "disk full") (by decide) (by decide) (by decide) (by decide)
    (by
      intro i e hi he
      obtain rfl : i = 0 := by omega
      obtain rfl : ("main.tpl", "main.go") = e := by simpa [failingEnv, demoEnv, templateFiles] using he
      decide)
    (by decide)

/-! ### The order of the calls -/

/-- C6, as stated, fails: when the range yields the entries of the map from the
last to the first, the calls of `GenerateFile` that `InitializeProject` makes are
not an initial segment of the calls in the order of the source. -/
theorem declared_order_not_followed :
    ¬ (generateCalls (InitializeProject reversedEnv "demo" "cli" []).2 <+:
        templateFiles.map (generateCall reversedEnv "demo" "cli")) := by
  decide

theorem generateCalls_append (a b : Trace) :
    generateCalls (a ++ b) = generateCalls a ++ generateCalls b := by
  simp [generateCalls]

theorem generateCalls_map_generateCall (env : Env) (p t : String)
    (l : List (String × String)) :
    generateCalls (l.map (generateCall env p t)) = l.map (generateCall env p t) := by
  induction l with
  | nil => rfl
  | cons a rest ih =>
    simp only [List.map_cons]
    have : generateCalls (generateCall env p t a :: rest.map (generateCall env p t)) =
        generateCall env p t a :: generateCalls (rest.map (generateCall env p t)) := by
      simp [generateCalls, generateCall]
    rw [this, ih]

/-- C6, amended: the calls of `GenerateFile` that a run of `InitializeProject`
adds to the history are an initial segment of the calls for the entries of the
map taken in the order in which the range yields them; that order holds each of
the six entries once. -/
theorem calls_follow_range_order (env : Env) (projectPath templateName : String)
    (tr : Trace) :
    generateCalls ((InitializeProject env projectPath templateName tr).2.drop tr.length) <+:
      (env.rangeOrder (setupTrace env projectPath templateName tr)).map
        (generateCall env projectPath templateName) ∧
    (env.rangeOrder (setupTrace env projectPath templateName tr)).Perm templateFiles := by
  refine ⟨?_, env.rangeOrder_perm _⟩
  rcases InitializeProject_cases env projectPath templateName tr with
    ⟨e, he⟩ | ⟨e, he⟩ | ⟨e, he⟩ | ⟨e, he⟩ | ⟨_, hloop⟩
  · rw [he]; simp [generateCalls]
  · rw [he]; simp [generateCalls]
  · rw [he]; simp [generateCalls]
  · rw [he]; simp [generateCalls, setupTrace]
  · rw [hloop]
    rcases generateLoop_result env projectPath templateName
        (env.rangeOrder (setupTrace env projectPath templateName tr))
        (setupTrace env projectPath templateName tr) with
      ⟨hres, _⟩ | ⟨k, entry, err, _, _, _, hres⟩
    · rw [hres]
      simp only [setupTrace, List.append_assoc, List.drop_left]
      rw [generateCalls_append, generateCalls_map_generateCall]
      simp [generateCalls]
    · rw [hres]
      simp only [setupTrace, List.append_assoc, List.drop_left]
      rw [generateCalls_append, generateCalls_map_generateCall]
      simp only [generateCalls, List.filter_cons, List.filter_nil, Bool.false_eq_true,
        if_false, List.nil_append]
      exact (List.take_prefix _ _).map _

/-! ### What a failed run returns -/

/-- C7, as stated, fails: `InitializeProject` returns an error value and nothing
else, and that value does not tell which files were written.  Two runs in which
`GenerateFile` fails on `go-mod.tpl`, one as mapping 2 of the range (after
`main.go` was written) and one as mapping 1 (nothing written), return the same
value. -/
theorem result_does_not_list_written_files :
    (InitializeProject failingEnv "demo" "cli" []).1 =
      (InitializeProject swappedEnv "demo" "cli" []).1 ∧
    writtenFrom failingEnv [] (InitializeProject failingEnv "demo" "cli" []).2 =
      ["demo/main.go"] ∧
    writtenFrom swappedEnv [] (InitializeProject swappedEnv "demo" "cli" []).2 = [] := by
  decide

/-- The file written by a call that succeeds. -/
theorem writtenFrom_cons_ok (env : Env) (p t : String) (a : String × String)
    (pre rest : Trace) (h : generateAnswer env p t pre a = none) :
    writtenFrom env pre (generateCall env p t a :: rest) =
      env.join p a.2 :: writtenFrom env (pre ++ [generateCall env p t a]) rest := by
  simp only [generateAnswer] at h
  simp [writtenFrom, generateCall, h]

/-- A call that fails writes no file. -/
theorem writtenFrom_single_fail (env : Env) (p t : String) (a : String × String)
    (pre : Trace) (err : GoError) (h : generateAnswer env p t pre a = some err) :
    writtenFrom env pre [generateCall env p t a] = [] := by
  simp only [generateAnswer] at h
  simp [writtenFrom, generateCall, h]

/-- The files written by a run of calls that all succeed. -/
theorem writtenFrom_calls (env : Env) (p t : String) :
    ∀ (l : List (String × String)) (pre rest : Trace),
      (∀ i e, l[i]? = some e →
        generateAnswer env p t (pre ++ (l.take i).map (generateCall env p t)) e = none) →
      writtenFrom env pre (l.map (generateCall env p t) ++ rest) =
        l.map (fun e => env.join p e.2) ++
          writtenFrom env (pre ++ l.map (generateCall env p t)) rest := by
  intro l
  induction l with
  | nil => intro pre rest _; simp
  | cons a l1 ih =>
    intro pre rest hall
    have h0 : generateAnswer env p t pre a = none := by
      have := hall 0 a (by simp)
      simpa using this
    have hrest : ∀ i e, l1[i]? = some e →
        generateAnswer env p t
          ((pre ++ [generateCall env p t a]) ++ (l1.take i).map (generateCall env p t)) e
          = none := by
      intro i e he
      have := hall (i + 1) e (by simpa using he)
      simpa using this
    simp only [List.map_cons, List.cons_append]
    rw [writtenFrom_cons_ok env p t a pre _ h0, ih (pre ++ [generateCall env p t a]) rest hrest]
    simp

/-- C7, amended: when, in a run of `InitializeProject` that reaches the loop, the
calls of `GenerateFile` for the `k` entries before position `k` of the range
succeed and the call for the entry at position `k` fails, the value returned is
the error `failed to generate <dest>: <cause>` wrapping the cause (no list of
files is returned); the calls made are those for the entries up to position `k`,
none for an entry after it, and the files written are the `k` output paths of
the entries before position `k`. -/
theorem failed_run_result (env : Env) (projectPath templateName : String)
    (tr : Trace) (k : Nat) (entry : String × String) (err : GoError)
    (hvalid : (ValidateTemplate env templateName tr).1 = none)
    (hstat : env.stat (tr ++ [Event.loadTemplate (env.getTemplatePath templateName "main.tpl")])
      projectPath = StatResult.notExist)
    (hmk : env.mkdirAll (tr ++ [Event.loadTemplate (env.getTemplatePath templateName "main.tpl"),
      Event.stat projectPath]) projectPath = none)
    (hk : (env.rangeOrder (setupTrace env projectPath templateName tr))[k]? = some entry)
    (hbefore : ∀ i e, i < k →
      (env.rangeOrder (setupTrace env projectPath templateName tr))[i]? = some e →
      generateAnswer env projectPath templateName
        (setupTrace env projectPath templateName tr ++
          ((env.rangeOrder (setupTrace env projectPath templateName tr)).take i).map
            (generateCall env projectPath templateName)) e = none)
    (hfail : generateAnswer env projectPath templateName
        (setupTrace env projectPath templateName tr ++
          ((env.rangeOrder (setupTrace env projectPath templateName tr)).take k).map
            (generateCall env projectPath templateName)) entry = some err) :
    (InitializeProject env projectPath templateName tr).1 =
      some (.wrap ("failed to generate " ++ entry.2 ++ ": " ++ err.Error) err) ∧
    generateCalls ((InitializeProject env projectPath templateName tr).2.drop tr.length) =
      ((env.rangeOrder (setupTrace env projectPath templateName tr)).take (k + 1)).map
        (generateCall env projectPath templateName) ∧
    writtenFrom env tr ((InitializeProject env projectPath templateName tr).2.drop tr.length) =
      ((env.rangeOrder (setupTrace env projectPath templateName tr)).take k).map
        (fun e => env.join projectPath e.2) := by
  rw [InitializeProject_reaches_loop env projectPath templateName tr hvalid hstat hmk,
    generateLoop_fail env projectPath templateName _ _ k entry err hk hbefore hfail]
  refine ⟨rfl, ?_, ?_⟩
  · simp only [setupTrace, List.append_assoc, List.drop_left]
    rw [generateCalls_append, generateCalls_map_generateCall]
    simp [generateCalls]
  · have htake : (env.rangeOrder (setupTrace env projectPath templateName tr)).take (k + 1) =
        (env.rangeOrder (setupTrace env projectPath templateName tr)).take k ++ [entry] := by
      rw [List.take_succ, hk]
      rfl
    have hall : ∀ i e,
        ((env.rangeOrder (setupTrace env projectPath templateName tr)).take k)[i]? = some e →
        generateAnswer env projectPath templateName
          (setupTrace env projectPath templateName tr ++
            (((env.rangeOrder (setupTrace env projectPath templateName tr)).take k).take i).map
              (generateCall env projectPath templateName)) e = none := by
      intro i e he
      by_cases hi : i < k
      · rw [List.getElem?_take_of_lt hi] at he
        have := hbefore i e hi he
        rwa [List.take_take, min_eq_left (Nat.le_of_lt hi)]
      · rw [List.getElem?_eq_none (by simp; omega)] at he
        simp at he
    have hw := writtenFrom_calls env projectPath templateName
      ((env.rangeOrder (setupTrace env projectPath templateName tr)).take k)
      (setupTrace env projectPath templateName tr)
      [generateCall env projectPath templateName entry] hall
    rw [htake]
    simp only [List.map_append, List.map_cons, List.map_nil]
    have hsetup : ∀ rest, writtenFrom env tr
        ((setupTrace env projectPath templateName tr ++ rest).drop tr.length) =
        writtenFrom env (setupTrace env projectPath templateName tr) rest := by
      intro rest
      simp [setupTrace, writtenFrom]
    rw [hsetup, hw, writtenFrom_single_fail env projectPath templateName entry _ err hfail]
    simp

theorem failed_run_result_witness :
    (InitializeProject failingEnv "demo" "cli" []).1 =
      some (.wrap "failed to generate go.mod: disk full" (.plain "disk full")) ∧
    generateCalls ((InitializeProject failingEnv "demo" "cli" []).2.drop 0) =
      [generateCall failingEnv "demo" "cli" ("main.tpl", "main.go"),
        generateCall failingEnv "demo" "cli" ("go-mod.tpl", "go.mod")] ∧
    writtenFrom failingEnv [] ((InitializeProject failingEnv "demo" "cli" []).2.drop 0) =
      ["demo/main.go"] :=
  failed_run_result failingEnv "demo" "cli" [] 1 ("go-mod.tpl", "go.mod")
    (.plain "disk full") (by decide) (by decide) (by decide) (by decide)
    (by
      intro i e hi he
      obtain rfl : i = 0 := by omega
      obtain rfl : ("main.tpl", "main.go") = e := by simpa [failingEnv, demoEnv, templateFiles] using he
      decide)
    (by decide)

/-! ### The init command -/

/-- C8, as stated, fails: with an unsupported `--type`, no project name on the
command line and a failing name prompt, the command prints the error of the
prompt and returns before it looks at the project type. -/
theorem unsupported_type_not_reported :
    initRun promptFailEnv ⟨"nonexistent", none, none, none, none⟩ [] [] =
      [Event.askProjectName, Event.print "Error: EOF\n"] := by
  decide

theorem initType_unsupported (env : Env) (projectType : String) (tr : Trace)
    (h1 : projectType ≠ "api") (h2 : projectType ≠ "cli") (h3 : projectType ≠ "") :
    initType env projectType tr =
      (none, tr ++ [Event.print ("Error: unsupported project type: " ++ projectType ++ "\n")]) := by
  simp [initType, h1, h2, h3]

theorem ExtendsQuietly.refl (tr : Trace) : ExtendsQuietly tr tr :=
  ⟨[], by simp, by simp⟩

theorem ExtendsQuietly.trans {a b c : Trace} (h1 : ExtendsQuietly a b)
    (h2 : ExtendsQuietly b c) : ExtendsQuietly a c := by
  obtain ⟨e1, rfl, q1⟩ := h1
  obtain ⟨e2, rfl, q2⟩ := h2
  refine ⟨e1 ++ e2, by simp, ?_⟩
  intro e he
  rcases List.mem_append.mp he with h | h
  · exact q1 e h
  · exact q2 e h

theorem ExtendsQuietly.snoc {a b : Trace} (h : ExtendsQuietly a b) (e : Event)
    (he : e.isGeneratorEffect = false) : ExtendsQuietly a (b ++ [e]) :=
  h.trans ⟨[e], rfl, by simpa using he⟩

theorem ExtendsQuietly.drop {a b : Trace} (h : ExtendsQuietly a b) :
    ∀ e ∈ b.drop a.length, e.isGeneratorEffect = false := by
  obtain ⟨ext, rfl, q⟩ := h
  simpa using q

theorem initName_quiet (env : Env) (args : List String) (tr : Trace) :
    ExtendsQuietly tr (initName env args tr).2 := by
  cases args with
  | nil => exact (ExtendsQuietly.refl tr).snoc _ rfl
  | cons a rest => exact ExtendsQuietly.refl tr

theorem initType_quiet (env : Env) (projectType : String) (tr : Trace) :
    ExtendsQuietly tr (initType env projectType tr).2 := by
  unfold initType
  by_cases h1 : projectType = "api" ∨ projectType = "cli"
  · simp only [h1, if_true]
    exact ExtendsQuietly.refl tr
  · by_cases h2 : projectType = ""
    · simp only [h1, h2, if_true, if_false]
      cases env.askProjectType tr with
      | error err => exact ⟨_, rfl, by simp [Event.isGeneratorEffect]⟩
      | ok answer => exact ⟨_, rfl, by simp [Event.isGeneratorEffect]⟩
    · simp only [h1, h2, if_false]
      exact ⟨_, rfl, by simp [Event.isGeneratorEffect]⟩

theorem initConfig_quiet (env : Env) (flags : InitFlags) (projectType : String) (tr : Trace) :
    ExtendsQuietly tr (initConfig env flags projectType tr).2 := by
  unfold initConfig
  split
  · cases env.askProjectQuestions tr projectType with
    | error err => exact ⟨_, rfl, by simp [Event.isGeneratorEffect]⟩
    | ok answers => exact ⟨_, rfl, by simp [Event.isGeneratorEffect]⟩
  · exact ExtendsQuietly.refl tr

theorem initDispatch_other (env : Env) (flags : InitFlags) (projectName projectType : String)
    (vars : Toggles) (tr : Trace) (h1 : projectType ≠ "api") (h2 : projectType ≠ "cli") :
    initDispatch env flags projectName projectType vars tr =
      (some (.plain ("unsupported project type: " ++ projectType)), tr) := by
  simp [initDispatch, h1, h2]

/-- A run of the init command whose project type, once resolved, is neither
`"api"` nor `"cli"` has none of the effects of the api and cli commands. -/
theorem initRun_quiet (env : Env) (flags : InitFlags) (args : List String) (tr : Trace)
    (h1 : resolvedType env flags args tr ≠ some "api")
    (h2 : resolvedType env flags args tr ≠ some "cli") :
    ExtendsQuietly tr (initRun env flags args tr) := by
  unfold initRun
  unfold resolvedType at h1 h2
  have hn := initName_quiet env args tr
  rcases hname : initName env args tr with ⟨r, tr1⟩
  rw [hname] at hn h1 h2
  cases r with
  | error err => exact hn.snoc _ rfl
  | ok projectName =>
    simp only at h1 h2 ⊢
    have ht := initType_quiet env flags.projectType tr1
    rcases htype : initType env flags.projectType tr1 with ⟨o, tr2⟩
    rw [htype] at ht h1 h2
    cases o with
    | none => exact hn.trans ht
    | some projectType =>
      simp only [ne_eq, Option.some.injEq] at h1 h2 ⊢
      have hc := initConfig_quiet env flags projectType tr2
      rcases hconf : initConfig env flags projectType tr2 with ⟨c, tr3⟩
      rw [hconf] at hc
      cases c with
      | none => exact (hn.trans ht).trans hc
      | some vars =>
        simp only
        rw [initDispatch_other env flags projectName projectType vars tr3 h1 h2]
        exact ((hn.trans ht).trans hc).snoc _ rfl

/-- C8, amended: when the project type given to the init command is neither
`"api"`, `"cli"` nor empty, then, once the project name is there (from the
argument or from a prompt that succeeded), the command prints `Error:
unsupported project type: <type>` and returns; whether or not the name prompt
succeeded, all it does is ask for the name and print, so it neither asks the
configuration questions nor runs a project generator.  In every run, an effect
of a project generator occurs only if the resolved project type is `"api"` or
`"cli"`. -/
theorem init_unsupported_type (env : Env) (flags : InitFlags) (args : List String)
    (tr : Trace) :
    (flags.projectType ≠ "api" → flags.projectType ≠ "cli" → flags.projectType ≠ "" →
      (∀ name, (initName env args tr).1 = .ok name →
        initRun env flags args tr = (initName env args tr).2 ++
          [Event.print ("Error: unsupported project type: " ++ flags.projectType ++ "\n")]) ∧
      (∀ e ∈ (initRun env flags args tr).drop tr.length,
        e = Event.askProjectName ∨ ∃ text, e = Event.print text)) ∧
    ((∃ e ∈ (initRun env flags args tr).drop tr.length, e.isGeneratorEffect = true) →
      resolvedType env flags args tr = some "api" ∨
      resolvedType env flags args tr = some "cli") := by
  constructor
  · intro h1 h2 h3
    constructor
    · intro name hname
      unfold initRun
      rcases hn : initName env args tr with ⟨r, tr1⟩
      rw [hn] at hname
      simp only at hname
      subst hname
      simp [initType_unsupported env flags.projectType tr1 h1 h2 h3]
    · unfold initRun
      cases args with
      | nil =>
        simp only [initName]
        cases env.askProjectName tr with
        | error err => simp
        | ok name => simp [initType_unsupported env flags.projectType _ h1 h2 h3]
      | cons a rest =>
        simp [initName, initType_unsupported env flags.projectType _ h1 h2 h3]
  · rintro ⟨e, he, hgen⟩
    by_contra hcon
    push_neg at hcon
    have := (initRun_quiet env flags args tr hcon.1 hcon.2).drop e he
    rw [this] at hgen
    exact Bool.false_ne_true hgen

theorem init_unsupported_type_witness :
    initRun demoEnv ⟨"nonexistent", none, none, none, none⟩ ["test-project"] [] =
      [Event.print "Error: unsupported project type: nonexistent\n"] ∧
    (resolvedType demoEnv ⟨"cli", some false, some false, some false, some false⟩ ["demo"] []
        = some "api" ∨
      resolvedType demoEnv ⟨"cli", some false, some false, some false, some false⟩ ["demo"] []
        = some "cli") :=
  ⟨((init_unsupported_type demoEnv ⟨"nonexistent", none, none, none, none⟩
      ["test-project"] []).1 (by decide) (by decide) (by decide)).1 "test-project" rfl,
    (init_unsupported_type demoEnv ⟨"cli", some false, some false, some false, some false⟩
      ["demo"] []).2 ⟨Event.stat "demo", by decide, rfl⟩⟩

/-! ### Errors and the exit status -/

/-- C9, as stated, fails: on an unsupported project type the init command prints
the error on standard output itself; `main` receives no error, prints nothing on
standard error and the exit status is 0. -/
theorem init_error_exit_status_zero :
    main demoEnv ⟨"nonexistent", none, none, none, none⟩ ["test-project"] [] =
      (0, [Event.print "Error: unsupported project type: nonexistent\n"]) := by
  decide

theorem error_line_assoc (a b : String) :
    "Error: " ++ a ++ b = "Error: " ++ (a ++ b) := String.append_assoc _ _ _

theorem initType_none_ends (env : Env) (projectType : String) (tr tr2 : Trace)
    (h : initType env projectType tr = (none, tr2)) :
    ∃ pre msg, tr2 = pre ++ [Event.print ("Error: " ++ msg ++ "\n")] := by
  unfold initType at h
  by_cases h1 : projectType = "api" ∨ projectType = "cli"
  · simp [h1] at h
  · by_cases h2 : projectType = ""
    · subst h2
      have hd : ¬ (("" : String) = "api" ∨ ("" : String) = "cli") := by decide
      simp only [hd, if_true, if_false] at h
      cases ha : env.askProjectType tr with
      | error err =>
        simp only [ha, Prod.mk.injEq, true_and] at h
        exact ⟨tr ++ [Event.askProjectType], err.Error, by rw [← h]; simp⟩
      | ok answer => simp [ha] at h
    · simp only [h1, h2, if_false, Prod.mk.injEq, true_and] at h
      refine ⟨tr, "unsupported project type: " ++ projectType, ?_⟩
      rw [← h, ← error_line_assoc]
      rfl

theorem initConfig_none_ends (env : Env) (flags : InitFlags) (projectType : String)
    (tr tr3 : Trace) (h : initConfig env flags projectType tr = (none, tr3)) :
    ∃ pre msg, tr3 = pre ++ [Event.print ("Error: " ++ msg ++ "\n")] := by
  unfold initConfig at h
  split at h
  · cases ha : env.askProjectQuestions tr projectType with
    | error err =>
      rw [ha] at h
      simp only [Prod.mk.injEq, true_and] at h
      refine ⟨tr ++ [Event.askProjectQuestions projectType],
        "failed to get project configuration: " ++ err.Error, ?_⟩
      rw [← h, ← error_line_assoc, List.append_assoc]
      rfl
    | ok answers => rw [ha] at h; simp at h
  · simp at h

/-- C9, amended: in a run of the init command (with at most one argument) `main`
receives no error: the exit status is 0 and `main` adds nothing (no line on
standard error, no `os.Exit`) to what `initCmd.Run` did.  `initCmd.Run` reports
each error on standard output and returns: a failed name prompt, an unsupported
project type, a failed type prompt, failed configuration questions, and an error
returned by the api or cli command each end the run with the line `Error:
<message>` of that error; `Project initialized successfully` is printed exactly
when the api or cli command returned nil.  The last effect of every run is one
of these lines. -/
theorem init_errors_printed_not_returned (env : Env) (flags : InitFlags)
    (args : List String) (tr : Trace) (hargs : args.length ≤ 1) :
    main env flags args tr = (0, initRun env flags args tr) ∧
    (∃ pre text, initRun env flags args tr = pre ++ [Event.print text] ∧
      (text = "Project initialized successfully\n" ∨
        ∃ msg, text = "Error: " ++ msg ++ "\n")) ∧
    (∀ err, args = [] → env.askProjectName tr = .error err →
      initRun env flags args tr =
        tr ++ [Event.askProjectName, Event.print ("Error: " ++ err.Error ++ "\n")]) ∧
    (∀ projectName tr1, initName env args tr = (.ok projectName, tr1) →
      (flags.projectType ≠ "api" → flags.projectType ≠ "cli" → flags.projectType ≠ "" →
        initRun env flags args tr = tr1 ++
          [Event.print ("Error: unsupported project type: " ++ flags.projectType ++ "\n")]) ∧
      (∀ err, flags.projectType = "" → env.askProjectType tr1 = .error err →
        initRun env flags args tr = tr1 ++
          [Event.askProjectType, Event.print ("Error: " ++ err.Error ++ "\n")]) ∧
      (∀ projectType tr2, initType env flags.projectType tr1 = (some projectType, tr2) →
        (∀ err, flags.useZap = none → flags.usePostgres = none → flags.useRedis = none →
          flags.useRabbitMQ = none →
          env.askProjectQuestions tr2 projectType = .error err →
          initRun env flags args tr = tr2 ++
            [Event.askProjectQuestions projectType,
              Event.print ("Error: failed to get project configuration: "
                ++ err.Error ++ "\n")]) ∧
        (∀ vars tr3 err tr4, initConfig env flags projectType tr2 = (some vars, tr3) →
          initDispatch env flags projectName projectType vars tr3 = (some err, tr4) →
          initRun env flags args tr =
            tr4 ++ [Event.print ("Error: " ++ err.Error ++ "\n")]) ∧
        (∀ vars tr3 tr4, initConfig env flags projectType tr2 = (some vars, tr3) →
          initDispatch env flags projectName projectType vars tr3 = (none, tr4) →
          initRun env flags args tr =
            tr4 ++ [Event.print "Project initialized successfully\n"]))) := by
  refine ⟨by simp [main, Execute, hargs], ?_, ?_, ?_⟩
  · unfold initRun
    rcases hname : initName env args tr with ⟨r, tr1⟩
    cases r with
    | error err => exact ⟨tr1, _, rfl, Or.inr ⟨err.Error, rfl⟩⟩
    | ok projectName =>
      simp only
      rcases htype : initType env flags.projectType tr1 with ⟨o, tr2⟩
      cases o with
      | none =>
        obtain ⟨pre, msg, hpre⟩ := initType_none_ends env flags.projectType tr1 tr2 htype
        exact ⟨pre, _, hpre, Or.inr ⟨msg, rfl⟩⟩
      | some projectType =>
        simp only
        rcases hconf : initConfig env flags projectType tr2 with ⟨c, tr3⟩
        cases c with
        | none =>
          obtain ⟨pre, msg, hpre⟩ := initConfig_none_ends env flags projectType tr2 tr3 hconf
          exact ⟨pre, _, hpre, Or.inr ⟨msg, rfl⟩⟩
        | some vars =>
          simp only
          rcases hd : initDispatch env flags projectName projectType vars tr3 with ⟨d, tr4⟩
          cases d with
          | none => exact ⟨tr4, _, rfl, Or.inl rfl⟩
          | some err => exact ⟨tr4, _, rfl, Or.inr ⟨err.Error, rfl⟩⟩
  · intro err hnil hask
    subst hnil
    simp [initRun, initName, hask]
  · intro projectName tr1 hname
    refine ⟨?_, ?_, ?_⟩
    · intro h1 h2 h3
      simp [initRun, hname, initType_unsupported env flags.projectType tr1 h1 h2 h3]
    · intro err hty hask
      have hd : ¬ (("" : String) = "api" ∨ ("" : String) = "cli") := by decide
      simp [initRun, hname, initType, hty, hd, hask]
    · intro projectType tr2 htype
      refine ⟨?_, ?_, ?_⟩
      · intro err hz hp hr hq hask
        simp [initRun, hname, htype, initConfig, hz, hp, hr, hq, hask]
      · intro vars tr3 err tr4 hconf hd
        simp [initRun, hname, htype, hconf, hd]
      · intro vars tr3 tr4 hconf hd
        simp [initRun, hname, htype, hconf, hd]

theorem init_errors_printed_not_returned_witness :
    main existingEnv ⟨"api", some false, some false, some false, some false⟩ ["demo"] [] =
      (0, initRun existingEnv ⟨"api", some false, some false, some false, some false⟩
        ["demo"] []) ∧
    initRun promptFailEnv ⟨"api", none, none, none, none⟩ [] [] =
      [] ++ [Event.askProjectName,
        Event.print ("Error: " ++ (GoError.plain "EOF").Error ++ "\n")] ∧
    initRun demoEnv ⟨"nonexistent", none, none, none, none⟩ ["demo"] [] =
      [] ++ [Event.print ("Error: unsupported project type: " ++ "nonexistent" ++ "\n")] ∧
    initRun typePromptFailEnv ⟨"", none, none, none, none⟩ ["demo"] [] =
      [] ++ [Event.askProjectType,
        Event.print ("Error: " ++ (GoError.plain "EOF").Error ++ "\n")] ∧
    initRun questionsFailEnv ⟨"api", none, none, none, none⟩ ["demo"] [] =
      [] ++ [Event.askProjectQuestions "api",
        Event.print ("Error: failed to get project configuration: "
          ++ (GoError.plain "EOF").Error ++ "\n")] ∧
    initRun existingEnv ⟨"api", some false, some false, some false, some false⟩ ["demo"] [] =
      [Event.stat "demo", Event.printErr "Error: directory demo already exists\n",
        Event.printUsage "api"] ++
        [Event.print ("Error: " ++ (GoError.plain "directory demo already exists").Error
          ++ "\n")] ∧
    initRun demoEnv ⟨"cli", some false, some false, some false, some false⟩ ["demo"] [] =
      (cliExecute demoEnv ["demo", "--use-zap=false", "--use-postgres=false",
        "--use-redis=false", "--use-rabbitmq=false"] []).2 ++
        [Event.print "Project initialized successfully\n"] :=
  ⟨(init_errors_printed_not_returned existingEnv
      ⟨"api", some false, some false, some false, some false⟩ ["demo"] [] (by decide)).1,
    (init_errors_printed_not_returned promptFailEnv ⟨"api", none, none, none, none⟩ [] []
      (by decide)).2.2.1 (.plain "EOF") rfl rfl,
    ((init_errors_printed_not_returned demoEnv ⟨"nonexistent", none, none, none, none⟩
      ["demo"] [] (by decide)).2.2.2 "demo" [] rfl).1 (by decide) (by decide) (by decide),
    ((init_errors_printed_not_returned typePromptFailEnv ⟨"", none, none, none, none⟩
      ["demo"] [] (by decide)).2.2.2 "demo" [] rfl).2.1 (.plain "EOF") rfl rfl,
    (((init_errors_printed_not_returned questionsFailEnv ⟨"api", none, none, none, none⟩
      ["demo"] [] (by decide)).2.2.2 "demo" [] rfl).2.2 "api" [] (by decide)).1
      (.plain "EOF") rfl rfl rfl rfl rfl,
    (((init_errors_printed_not_returned existingEnv
      ⟨"api", some false, some false, some false, some false⟩ ["demo"] []
      (by decide)).2.2.2 "demo" [] rfl).2.2 "api" [] (by decide)).2.1
      ⟨false, false, false, false⟩ [] (.plain "directory demo already exists")
      [Event.stat "demo", Event.printErr "Error: directory demo already exists\n",
        Event.printUsage "api"] (by decide) (by decide),
    (((init_errors_printed_not_returned demoEnv
      ⟨"cli", some false, some false, some false, some false⟩ ["demo"] []
      (by decide)).2.2.2 "demo" [] rfl).2.2 "cli" [] (by decide)).2.2
      ⟨false, false, false, false⟩ []
      (cliExecute demoEnv ["demo", "--use-zap=false", "--use-postgres=false",
        "--use-redis=false", "--use-rabbitmq=false"] []).2 (by decide) (by decide)⟩

/-! ### Failures inside the cli command -/

/-- C10: evaluation at the failing input.  With `--type cli` and a project path
that exists already, the cli command prints its error and returns, its `Execute`
hands nil to the init command, and the init command prints `Project initialized
successfully` although nothing was created.  With `--type api` on the same input
the error is returned (cobra reports it on standard error) and the init command
prints it; no success is reported. -/
theorem cli_failure_reported_as_success :
    initRun existingEnv ⟨"cli", some false, some false, some false, some false⟩ ["demo"] [] =
      [Event.stat "demo", Event.print "Error: directory demo already exists\n",
        Event.print "Project initialized successfully\n"] ∧
    initRun existingEnv ⟨"api", some false, some false, some false, some false⟩ ["demo"] [] =
      [Event.stat "demo", Event.printErr "Error: directory demo already exists\n",
        Event.printUsage "api", Event.print "Error: directory demo already exists\n"] := by
  decide

/-! ### Errors of the file system -/

/-- C11, as stated, fails: when the project directory `work/demo` cannot be
created because `MkdirAll` fails on its parent, the error that
`InitializeProject` returns wraps the cause, but its message is `failed to create
project directory: ` followed by the message of the cause, and the project path
does not occur in it. -/
theorem mkdir_error_lacks_path :
    InitializeProject mkdirFailEnv "work/demo" "cli" [] =
      (some (.wrap "failed to create project directory: mkdir work: permission denied"
        (.plain "mkdir work: permission denied")),
        [Event.loadTemplate "cli/main.tpl", Event.stat "work/demo",
          Event.mkdirAll "work/demo"]) ∧
    stringsContains "failed to create project directory: mkdir work: permission denied"
      "work/demo" = false := by
  decide

/-- C11, amended: when `InitializeProject` fails because `MkdirAll` on the
project path failed, the error returned wraps the cause and its message is
`failed to create project directory: <cause>`; when it fails because
`GenerateFile` failed on an entry of the map, the error returned wraps the cause
and its message is `failed to generate <dest>: <cause>`, `<dest>` being the
destination of the entry in the manifest, relative to the project path. -/
theorem filesystem_failure_wrapped (env : Env) (projectPath templateName : String)
    (tr : Trace)
    (hvalid : (ValidateTemplate env templateName tr).1 = none)
    (hstat : env.stat (tr ++ [Event.loadTemplate (env.getTemplatePath templateName "main.tpl")])
      projectPath = StatResult.notExist) :
    (∀ err,
      env.mkdirAll (tr ++ [Event.loadTemplate (env.getTemplatePath templateName "main.tpl"),
        Event.stat projectPath]) projectPath = some err →
      ∃ e, (InitializeProject env projectPath templateName tr).1 = some e ∧
        e.Unwrap = some err ∧
        e.Error = "failed to create project directory: " ++ err.Error) ∧
    (∀ k entry err,
      env.mkdirAll (tr ++ [Event.loadTemplate (env.getTemplatePath templateName "main.tpl"),
        Event.stat projectPath]) projectPath = none →
      (env.rangeOrder (setupTrace env projectPath templateName tr))[k]? = some entry →
      (∀ i e, i < k →
        (env.rangeOrder (setupTrace env projectPath templateName tr))[i]? = some e →
        generateAnswer env projectPath templateName
          (setupTrace env projectPath templateName tr ++
            ((env.rangeOrder (setupTrace env projectPath templateName tr)).take i).map
              (generateCall env projectPath templateName)) e = none) →
      generateAnswer env projectPath templateName
        (setupTrace env projectPath templateName tr ++
          ((env.rangeOrder (setupTrace env projectPath templateName tr)).take k).map
            (generateCall env projectPath templateName)) entry = some err →
      ∃ e, (InitializeProject env projectPath templateName tr).1 = some e ∧
        e.Unwrap = some err ∧
        e.Error = "failed to generate " ++ entry.2 ++ ": " ++ err.Error) := by
  constructor
  · intro err hmk
    refine ⟨.wrap ("failed to create project directory: " ++ err.Error) err, ?_, rfl, rfl⟩
    unfold InitializeProject
    rw [ValidateTemplate_none env templateName tr hvalid]
    simp [hstat, hmk]
  · intro k entry err hmk hk hbefore hfail
    refine ⟨.wrap ("failed to generate " ++ entry.2 ++ ": " ++ err.Error) err, ?_, rfl, rfl⟩
    rw [InitializeProject_reaches_loop env projectPath templateName tr hvalid hstat hmk,
      generateLoop_fail env projectPath templateName _ _ k entry err hk hbefore hfail]

theorem filesystem_failure_wrapped_witness :
    (∃ e, (InitializeProject mkdirFailEnv "work/demo" "cli" []).1 = some e ∧
      e.Unwrap = some (.plain "mkdir work: permission denied") ∧
      e.Error = "failed to create project directory: "
        ++ (GoError.plain "mkdir work: permission denied").Error) ∧
    (∃ e, (InitializeProject failingEnv "demo" "cli" []).1 = some e ∧
      e.Unwrap = some (.plain "disk full") ∧
      e.Error = "failed to generate " ++ ("go-mod.tpl", "go.mod").2 ++ ": "
        ++ (GoError.plain "disk full").Error) :=
  ⟨(filesystem_failure_wrapped mkdirFailEnv "work/demo" "cli" [] (by decide) (by decide)).1
      (.plain "mkdir work: permission denied") (by decide),
    (filesystem_failure_wrapped failingEnv "demo" "cli" [] (by decide) (by decide)).2
      1 ("go-mod.tpl", "go.mod") (.plain "disk full") (by decide) (by decide)
      (by
        intro i e hi he
        obtain rfl : i = 0 := by omega
        obtain rfl : ("main.tpl", "main.go") = e := by
          simpa [failingEnv, demoEnv, templateFiles] using he
        decide)
      (by decide)⟩

/-! ### The answers to the configuration questions -/

/-- When no toggle flag was given, the second `switch` of `initCmd.Run` does not
depend on the value of the four package variables: the answers to the
configuration questions, which are stored in them, have no effect on it. -/
theorem initDispatch_ignores_answers (env : Env) (projectName projectType : String)
    (vars vars1 : Toggles) (tr : Trace) :
    initDispatch env ⟨projectType, none, none, none, none⟩ projectName projectType vars tr =
      initDispatch env ⟨projectType, none, none, none, none⟩ projectName projectType vars1 tr := by
  simp [initDispatch, apiArgs, cliArgs]

/-- C12: evaluation at the failing input.  With `--type api` (and likewise with
`--type cli`), no toggle flag, and the answer yes to each of the four
configuration questions, the questions are asked, but the project generator
receives the four toggles as `false`, not the answered values. -/
theorem answers_do_not_reach_generator :
    Event.askProjectQuestions "api" ∈
      initRun answerEnv ⟨"api", none, none, none, none⟩ ["demo"] [] ∧
    Event.generate "api" "demo" "demo" ⟨"demo", ⟨false, false, false, false⟩⟩ ∈
      initRun answerEnv ⟨"api", none, none, none, none⟩ ["demo"] [] ∧
    Event.generate "api" "demo" "demo" ⟨"demo", ⟨true, true, true, true⟩⟩ ∉
      initRun answerEnv ⟨"api", none, none, none, none⟩ ["demo"] [] ∧
    Event.askProjectQuestions "cli" ∈
      initRun answerEnv ⟨"cli", none, none, none, none⟩ ["demo"] [] ∧
    Event.generate "cli" "demo" "demo" ⟨"demo", ⟨false, false, false, false⟩⟩ ∈
      initRun answerEnv ⟨"cli", none, none, none, none⟩ ["demo"] [] ∧
    Event.generate "cli" "demo" "demo" ⟨"demo", ⟨true, true, true, true⟩⟩ ∉
      initRun answerEnv ⟨"cli", none, none, none, none⟩ ["demo"] [] := by
  decide

/-! ### The arguments of the api and cli commands -/

/-- The argument list of case `"api"` is the one the specification describes,
provided the package variable of every flag that was given holds the parsed
value of that flag. -/
theorem apiArgs_eq_specArgs (flags : InitFlags) (projectName : String) (vars : Toggles)
    (hz : ∀ b, flags.useZap = some b → vars.useZap = b)
    (hp : ∀ b, flags.usePostgres = some b → vars.usePostgres = b)
    (hr : ∀ b, flags.useRedis = some b → vars.useRedis = b)
    (hq : ∀ b, flags.useRabbitMQ = some b → vars.useRabbitMQ = b) :
    apiArgs flags projectName vars = specArgs flags projectName := by
  obtain ⟨ty, fz, fp, fr, fq⟩ := flags
  cases fz <;> cases fp <;> cases fr <;> cases fq <;>
    simp_all [apiArgs, specArgs]

/-- The argument lists of case `"api"` and of case `"cli"` are the same. -/
theorem apiArgs_eq_cliArgs (flags : InitFlags) (projectName : String) (vars : Toggles) :
    apiArgs flags projectName vars = cliArgs flags projectName vars := rfl

/-- The package variables with which `initCmd.Run` reaches its second `switch`
hold, for every flag that was given, the parsed value of the flag. -/
theorem initConfig_vars (env : Env) (flags : InitFlags) (projectType : String)
    (tr tr3 : Trace) (vars : Toggles)
    (h : initConfig env flags projectType tr = (some vars, tr3)) :
    (∀ b, flags.useZap = some b → vars.useZap = b) ∧
    (∀ b, flags.usePostgres = some b → vars.usePostgres = b) ∧
    (∀ b, flags.useRedis = some b → vars.useRedis = b) ∧
    (∀ b, flags.useRabbitMQ = some b → vars.useRabbitMQ = b) := by
  obtain ⟨ty, fz, fp, fr, fq⟩ := flags
  cases fz <;> cases fp <;> cases fr <;> cases fq <;>
    first
    | (simp; done)
    | (simp only [initConfig, InitFlags.vars, Option.isSome_some, Option.isSome_none,
        Bool.not_true, Bool.not_false, Bool.and_false, Bool.false_and, Bool.and_true,
        Bool.false_eq_true, if_false, Prod.mk.injEq, Option.some.injEq] at h
       obtain ⟨rfl, -⟩ := h
       simp)

/-- C13: in a run of `initCmd.Run` that reaches the second `switch`, the argument
list built in case `"api"` and the one built in case `"cli"` are both the list of
the specification (the project name, then, in the order use-zap, use-postgres,
use-redis, use-rabbitmq, `--<flag>=<value>` for the flags given on the command
line, with the parsed value of the flag); the two lists are equal, they are what
the api and the cli command are executed with, and the list is `[projectName]`
when no toggle flag was given. -/
theorem init_args_refine_spec (env : Env) (flags : InitFlags)
    (projectName projectType : String) (tr tr3 : Trace) (vars : Toggles)
    (h : initConfig env flags projectType tr = (some vars, tr3)) :
    apiArgs flags projectName vars = specArgs flags projectName ∧
    cliArgs flags projectName vars = specArgs flags projectName ∧
    apiArgs flags projectName vars = cliArgs flags projectName vars ∧
    initDispatch env flags projectName "api" vars tr3 =
      apiExecute env (specArgs flags projectName) tr3 ∧
    initDispatch env flags projectName "cli" vars tr3 =
      cliExecute env (specArgs flags projectName) tr3 ∧
    (flags.useZap = none → flags.usePostgres = none → flags.useRedis = none →
      flags.useRabbitMQ = none →
      apiArgs flags projectName vars = [projectName] ∧
      cliArgs flags projectName vars = [projectName]) := by
  obtain ⟨hz, hp, hr, hq⟩ := initConfig_vars env flags projectType tr tr3 vars h
  have hapi := apiArgs_eq_specArgs flags projectName vars hz hp hr hq
  have hcli : cliArgs flags projectName vars = specArgs flags projectName := by
    rw [← apiArgs_eq_cliArgs, hapi]
  refine ⟨hapi, hcli, apiArgs_eq_cliArgs flags projectName vars, ?_, ?_, ?_⟩
  · simp [initDispatch, hapi]
  · simp [initDispatch, hcli]
  · intro h1 h2 h3 h4
    rw [hcli, hapi]
    simp [specArgs, h1, h2, h3, h4]

theorem init_args_refine_spec_witness :
    initConfig demoEnv ⟨"cli", some false, none, some true, none⟩ "cli" [] =
      (some ⟨false, false, true, false⟩, []) ∧
    cliArgs ⟨"cli", some false, none, some true, none⟩ "demo" ⟨false, false, true, false⟩ =
      specArgs ⟨"cli", some false, none, some true, none⟩ "demo" ∧
    specArgs ⟨"cli", some false, none, some true, none⟩ "demo" =
      ["demo", "--use-zap=false", "--use-redis=true"] :=
  ⟨by decide,
    (init_args_refine_spec demoEnv ⟨"cli", some false, none, some true, none⟩ "demo" "cli"
      [] [] ⟨false, false, true, false⟩ (by decide)).2.1,
    by decide⟩

end Sova
